import Mathlib

/-!
Verification of the strategy-integration engine of `daily_stock_analysis`.

The definitions below are a shallow embedding of the Python sources:

* `src/src/strategy_integration.py` — the data model (`Quadrant`, `SignalLevel`,
  `RationalInvestmentScore`, `GrowthValuationPosition`, `ShortTermSignal`,
  `IntegratedSignal`) and the `StrategyIntegrator` methods
  (`integrate_strategies`, `_determine_signal_level`,
  `_calculate_confidence_score`, `_calculate_position_size`);
* `src/.github/scripts/gate1_fundamental.py` — `gate1_score`;
* `src/.github/scripts/gate2_growth_value.py` — `gate2_priority`.

Python floats are modelled as rationals (ℚ); Python's `Optional[float]` as
`Option ℚ`.  Python truthiness of an optional float (`if x and ...`) is
`x ≠ None and x ≠ 0.0`, which is modelled faithfully where it occurs.
A pandas DataFrame of fundamental snapshots is modelled as a list of rows
(`Option (List FundamentalRow)`, `none` standing for Python `None`);
`row.get(col, default)` becomes `Option.getD`, and `df.iloc[-1]` becomes
`List.getLast?`.
-/

/-- The four quadrants of the growth-valuation map (`Quadrant` enum). -/
inductive Quadrant where
  | top_right
  | bottom_right
  | top_left
  | bottom_left
deriving DecidableEq, Repr

/-- Signal priority levels (`SignalLevel` enum).  `LEVEL_1` is the strongest
signal (all strategies pass); the numeric `.value` is 1, 2, 3 respectively. -/
inductive SignalLevel where
  | LEVEL_1
  | LEVEL_2
  | LEVEL_3
deriving DecidableEq, Repr

/-- The numeric value of the Python enum member (`SignalLevel.LEVEL_1.value = 1`, ...). -/
def SignalLevel.value : SignalLevel → ℕ
  | .LEVEL_1 => 1
  | .LEVEL_2 => 2
  | .LEVEL_3 => 3

/-- `RationalInvestmentScore` dataclass (fields relevant to the integrator). -/
structure RationalInvestmentScore where
  stock_code : String
  stock_name : String
  total_score : ℚ
  component_scores : List (String × ℚ) := []
  survival_veto : Bool := false
deriving DecidableEq, Repr

/-- `RationalInvestmentScore.is_pass`: `not survival_veto and total_score >= threshold`. -/
def RationalInvestmentScore.is_pass (s : RationalInvestmentScore) (threshold : ℚ) : Bool :=
  !s.survival_veto && decide (s.total_score ≥ threshold)

/-- `GrowthValuationPosition` dataclass.  `peg` models the `peg_ratio` field,
`industry_avg_growth` / `industry_avg_valuation` the optional industry baselines. -/
structure GrowthValuationPosition where
  stock_code : String
  stock_name : String
  growth_rate : ℚ
  valuation : ℚ
  quadrant : Quadrant
  peg : Option ℚ := none
  industry_avg_growth : Option ℚ := none
  industry_avg_valuation : Option ℚ := none
deriving DecidableEq, Repr

/-- `GrowthValuationPosition.is_in_target_quadrant`. -/
def GrowthValuationPosition.is_in_target_quadrant
    (g : GrowthValuationPosition) (target : Quadrant) : Bool :=
  decide (g.quadrant = target)

/-- `GrowthValuationPosition.get_relative_position`.  The Python guard is
`if self.industry_avg_growth and self.industry_avg_valuation:`, i.e. both
baselines must be non-`None` AND non-zero (float `0.0` is falsy). -/
def GrowthValuationPosition.get_relative_position
    (g : GrowthValuationPosition) : ℚ × ℚ :=
  match g.industry_avg_growth, g.industry_avg_valuation with
  | some ag, some av =>
      if ag ≠ 0 ∧ av ≠ 0 then
        (g.growth_rate - ag, g.valuation - av)
      else (0, 0)
  | _, _ => (0, 0)

/-- `ShortTermSignal` dataclass. -/
structure ShortTermSignal where
  stock_code : String
  stock_name : String
  trend_conditions_met : Bool
  sentiment_conditions_met : Bool
  structure_conditions_met : Bool
  soft_conditions_met : ℤ
  soft_conditions_total : ℤ
  current_price : ℚ
  structure_low : ℚ
  first_target : ℚ
  second_target : ℚ
  stop_loss : ℚ
deriving DecidableEq, Repr

/-- `ShortTermSignal.all_hard_conditions_met` property. -/
def ShortTermSignal.all_hard_conditions_met (s : ShortTermSignal) : Bool :=
  s.trend_conditions_met && s.sentiment_conditions_met && s.structure_conditions_met

/-- `ShortTermSignal.potential_return` property: percentage gain to the two
targets, or `(0, 0)` when `current_price` is not positive. -/
def ShortTermSignal.potential_return (s : ShortTermSignal) : ℚ × ℚ :=
  if s.current_price > 0 then
    ((s.first_target - s.current_price) / s.current_price,
     (s.second_target - s.current_price) / s.current_price)
  else (0, 0)

/-- `ShortTermSignal.risk_reward_ratio` property (named `risk_reward` here):
gain to the first target over loss to the stop-loss, or `0` when the loss is
not positive. -/
def ShortTermSignal.risk_reward (s : ShortTermSignal) : ℚ :=
  let potential_gain := s.first_target - s.current_price
  let potential_loss := s.current_price - s.stop_loss
  if potential_loss > 0 then potential_gain / potential_loss else 0

/-- `IntegratedSignal` dataclass (fields relevant to the claims). -/
structure IntegratedSignal where
  stock_code : String
  stock_name : String
  rational_investment : RationalInvestmentScore
  growth_valuation : GrowthValuationPosition
  short_term : ShortTermSignal
  signal_level : SignalLevel
  pass_all_strategies : Bool
  suggested_position : ℚ
  entry_price_range : ℚ × ℚ
  targets : List ℚ
  stop_loss : ℚ
  holding_period : ℤ × ℤ
  confidence_score : ℚ
deriving DecidableEq, Repr

/-- The two configuration values the integrator reads from its config
(default config: threshold 7.5, target quadrant `bottom_right`). -/
structure StrategyIntegrator where
  rational_threshold : ℚ
  target_quadrant : Quadrant
deriving DecidableEq, Repr

/-- The integrator built from the default configuration. -/
def defaultIntegrator : StrategyIntegrator :=
  { rational_threshold := 15 / 2, target_quadrant := .bottom_right }

/-- `StrategyIntegrator._determine_signal_level`. -/
def determine_signal_level (pass_rational pass_growth pass_short_term : Bool) : SignalLevel :=
  if pass_rational && pass_growth && pass_short_term then .LEVEL_1
  else if pass_growth && pass_short_term then .LEVEL_2
  else if pass_rational then .LEVEL_3
  else .LEVEL_3

/-- `StrategyIntegrator._calculate_confidence_score`.  The growth-valuation
branch `elif growth.peg_ratio and growth.peg_ratio < 1.0` tests Python
truthiness of the optional PEG, modelled by `g.peg.getD 0 ≠ 0` (true exactly
when the PEG is present and non-zero). -/
def calculate_confidence_score (I : StrategyIntegrator)
    (r : RationalInvestmentScore) (g : GrowthValuationPosition)
    (st : ShortTermSignal) (pass_all : Bool) : ℚ :=
  let s1 := min (r.total_score / 10) 1 * 4
  let s2 : ℚ :=
    if g.quadrant = I.target_quadrant then 3
    else if g.peg.getD 0 ≠ 0 ∧ g.peg.getD 0 < 1 then 2
    else 1
  let s3 : ℚ :=
    (if st.all_hard_conditions_met then 2 else 0) +
    (if 3 ≤ st.soft_conditions_met then 1 else 0)
  let s4 : ℚ := if pass_all then 1 else 0
  min (s1 + s2 + s3 + s4) 10

/-- `StrategyIntegrator._calculate_position_size`. -/
def calculate_position_size (signal_level : SignalLevel)
    (confidence_score risk_reward : ℚ) : ℚ :=
  let base_position : ℚ :=
    match signal_level with
    | .LEVEL_1 => 4 / 100
    | .LEVEL_2 => 2 / 100
    | .LEVEL_3 => 1 / 100
  let confidence_multiplier := confidence_score / 10
  let rr_multiplier : ℚ :=
    if risk_reward > 2 then 12 / 10
    else if risk_reward > 3 / 2 then 1
    else 8 / 10
  min (base_position * confidence_multiplier * rr_multiplier) (8 / 100)

/-- One row of the fundamentals DataFrame used by the gate scripts.  Each
field is optional because `row.get(col, default)` tolerates missing columns.
`liability_rate` = 资产负债率, `liquidity_rate` = 流动比率, `roe` = ROE,
`op_cash_flow` = 经营现金流量净额, `net_profit` = 净利润,
`profit_growth` = 净利润同比, `pe` = 市盈率. -/
structure FundamentalRow where
  liability_rate : Option ℚ := none
  liquidity_rate : Option ℚ := none
  roe : Option ℚ := none
  op_cash_flow : Option ℚ := none
  net_profit : Option ℚ := none
  profit_growth : Option ℚ := none
  pe : Option ℚ := none
deriving DecidableEq, Repr

/-- `gate1_score` from `gate1_fundamental.py`. -/
def gate1_score (funda : Option (List FundamentalRow)) : ℤ :=
  match funda with
  | none => 0
  | some rows =>
    match rows.getLast? with
    | none => 0
    | some row =>
      let s : ℤ :=
        (if row.liability_rate.getD 100 < 70 then 2 else 0)
        + (if row.liquidity_rate.getD 0 > 1 then 1 else 0)
        + (if row.roe.getD 0 > 10 then 2 else 0)
        + (if row.op_cash_flow.getD (-1) > 0 then 2 else 0)
        - (if row.net_profit.getD (-1) < 0 then 2 else 0)
      max s 0

/-- `gate2_priority` from `gate2_growth_value.py`. -/
def gate2_priority (funda : Option (List FundamentalRow)) : ℤ :=
  match funda with
  | none => 0
  | some rows =>
    if rows.length < 2 then 0
    else
      match rows.getLast? with
      | none => 0
      | some row =>
        let growth := row.profit_growth.getD 0
        let pe := row.pe.getD 100
        if growth ≤ 0 then 0
        else if growth > 30 ∧ pe < 20 then 3
        else if growth > 20 then 2
        else if growth > 10 then 1
        else 0

/-- A concrete short-term signal whose current price is zero and whose
stop-loss is above the price (both guard branches active). -/
def stZeroPrice : ShortTermSignal :=
  { stock_code := "000001", stock_name := "Demo",
    trend_conditions_met := false, sentiment_conditions_met := false,
    structure_conditions_met := false,
    soft_conditions_met := 0, soft_conditions_total := 6,
    current_price := 0, structure_low := 0,
    first_target := 12, second_target := 14, stop_loss := 5 }

/-- A position whose industry baselines are both present, with the growth
baseline equal to `0.0` (falsy in Python). -/
def gZeroBaseline : GrowthValuationPosition :=
  { stock_code := "600000", stock_name := "Demo",
    growth_rate := 5, valuation := 10, quadrant := .bottom_left,
    industry_avg_growth := some 0, industry_avg_valuation := some 5 }

/-- A rational-investment verdict with a negative raw total score. -/
def rNeg : RationalInvestmentScore :=
  { stock_code := "600010", stock_name := "Neg", total_score := -100 }

/-- A rational-investment verdict with total score zero. -/
def rZero : RationalInvestmentScore :=
  { stock_code := "600011", stock_name := "Zed", total_score := 0 }

/-- A position outside the target quadrant whose PEG is present and equal to
`0.0` (falsy in Python, yet literally "under 1.0"). -/
def gPegZero : GrowthValuationPosition :=
  { stock_code := "600010", stock_name := "Neg", growth_rate := 1, valuation := 50,
    quadrant := .top_left, peg := some 0 }

/-- A short-term signal meeting no hard and no soft conditions. -/
def stQuiet : ShortTermSignal :=
  { stock_code := "600010", stock_name := "Neg",
    trend_conditions_met := false, sentiment_conditions_met := false,
    structure_conditions_met := false,
    soft_conditions_met := 0, soft_conditions_total := 6,
    current_price := 10, structure_low := 9,
    first_target := 12, second_target := 14, stop_loss := 9 }

/-- Modelled from the claim C3's words: the confidence formula with the
growth-valuation branch awarding 2 points whenever the PEG ratio is under 1.0
(no non-zero requirement), summed and clamped at 10. -/
def claim_confidence_formula (I : StrategyIntegrator)
    (r : RationalInvestmentScore) (g : GrowthValuationPosition)
    (st : ShortTermSignal) (pass_all : Bool) : ℚ :=
  let s1 := min (r.total_score / 10) 1 * 4
  let s2 : ℚ :=
    if g.quadrant = I.target_quadrant then 3
    else
      match g.peg with
      | some p => if p < 1 then 2 else 1
      | none => 1
  let s3 : ℚ :=
    (if st.all_hard_conditions_met then 2 else 0) +
    (if 3 ≤ st.soft_conditions_met then 1 else 0)
  let s4 : ℚ := if pass_all then 1 else 0
  min (s1 + s2 + s3 + s4) 10

/-- A rational-investment verdict with total score 8 (a passing, non-negative
score). -/
def rEight : RationalInvestmentScore :=
  { stock_code := "600012", stock_name := "Oct", total_score := 8 }

/-- Modelled from the claim C5's words: base fraction keyed to tier (4%, 2%,
1%) times confidence/10 times the risk/reward multiplier (1.2 above 2.0, 0.8
at or below 1.5, 1.0 in between). -/
def claim_position_formula (lvl : SignalLevel) (confidence risk_reward : ℚ) : ℚ :=
  (match lvl with
    | .LEVEL_1 => (4 : ℚ) / 100
    | .LEVEL_2 => 2 / 100
    | .LEVEL_3 => 1 / 100)
  * (confidence / 10)
  * (if risk_reward > 2 then (12 : ℚ) / 10
     else if risk_reward > 3 / 2 then 1
     else 8 / 10)

/-- The position-size computation without the final hard cap
(`base_position * confidence_multiplier * rr_multiplier`). -/
def calculate_position_size_uncapped (lvl : SignalLevel)
    (confidence_score risk_reward : ℚ) : ℚ :=
  let base_position : ℚ :=
    match lvl with
    | .LEVEL_1 => 4 / 100
    | .LEVEL_2 => 2 / 100
    | .LEVEL_3 => 1 / 100
  let confidence_multiplier := confidence_score / 10
  let rr_multiplier : ℚ :=
    if risk_reward > 2 then 12 / 10
    else if risk_reward > 3 / 2 then 1
    else 8 / 10
  base_position * confidence_multiplier * rr_multiplier

/-- The scalar core of `gate2_priority`: the priority computed from the last
row's growth figure and PE, used to state properties of the gate. -/
def gate2_core (growth pe : ℚ) : ℤ :=
  if growth ≤ 0 then 0
  else if growth > 30 ∧ pe < 20 then 3
  else if growth > 20 then 2
  else if growth > 10 then 1
  else 0

/-- A row with every column missing. -/
def blankRow : FundamentalRow := ⟨none, none, none, none, none, none, none⟩

/-- Lookup in a dictionary built by a Python dict comprehension keyed by
stock code: iterating the list and overwriting means the LAST occurrence of a
key wins, hence the search over the reversed list. -/
def findByCode {α : Type} (codeOf : α → String) (c : String) (l : List α) : Option α :=
  l.reverse.find? fun x => decide (codeOf x = c)

/-- `all_codes = set(rational) | set(growth) | set(short_term)`: the distinct
stock codes appearing in any of the three inputs.  Python's set iteration
order is unspecified; this fixes one enumeration, which is immaterial because
the loop's output is finally sorted. -/
def all_codes (rs : List RationalInvestmentScore)
    (gs : List GrowthValuationPosition) (ss : List ShortTermSignal) : List String :=
  (rs.map RationalInvestmentScore.stock_code
    ++ gs.map GrowthValuationPosition.stock_code
    ++ ss.map ShortTermSignal.stock_code).dedup

/-- The loop body of `integrate_strategies` once all three verdicts are
present: pass flags, signal level, pass-all flag, confidence, position, and
the assembled `IntegratedSignal`. -/
def build_signal (I : StrategyIntegrator) (code : String)
    (rational : RationalInvestmentScore) (growth : GrowthValuationPosition)
    (short_term : ShortTermSignal) : IntegratedSignal :=
  let pass_rational := rational.is_pass I.rational_threshold
  let pass_growth := growth.is_in_target_quadrant I.target_quadrant
  let pass_short_term := short_term.all_hard_conditions_met
  let signal_level := determine_signal_level pass_rational pass_growth pass_short_term
  let pass_all := pass_rational && pass_growth && pass_short_term
  let confidence_score := calculate_confidence_score I rational growth short_term pass_all
  let suggested_position :=
    calculate_position_size signal_level confidence_score short_term.risk_reward
  { stock_code := code,
    stock_name := rational.stock_name,
    rational_investment := rational,
    growth_valuation := growth,
    short_term := short_term,
    signal_level := signal_level,
    pass_all_strategies := pass_all,
    suggested_position := suggested_position,
    entry_price_range :=
      (short_term.current_price * (98 / 100), short_term.current_price * (102 / 100)),
    targets := [short_term.first_target, short_term.second_target],
    stop_loss := short_term.stop_loss,
    holding_period := (5, 20),
    confidence_score := confidence_score }

/-- One iteration of the loop over `all_codes`: `continue` (i.e. `none`) when
any of the three dictionaries lacks the code. -/
def join_entry (I : StrategyIntegrator) (rs : List RationalInvestmentScore)
    (gs : List GrowthValuationPosition) (ss : List ShortTermSignal)
    (c : String) : Option IntegratedSignal :=
  match findByCode RationalInvestmentScore.stock_code c rs,
        findByCode GrowthValuationPosition.stock_code c gs,
        findByCode ShortTermSignal.stock_code c ss with
  | some r, some g, some s => some (build_signal I c r g s)
  | _, _, _ => none

/-- The comparison realised by
`sort(key=lambda x: (x.signal_level.value, x.confidence_score), reverse=True)`:
`a` may precede `b` when `a`'s key is lexicographically at least `b`'s. -/
def signalSortLe (a b : IntegratedSignal) : Prop :=
  b.signal_level.value < a.signal_level.value ∨
    (b.signal_level.value = a.signal_level.value ∧ b.confidence_score ≤ a.confidence_score)

instance : DecidableRel signalSortLe := fun a b => by
  unfold signalSortLe
  infer_instance

/-- `StrategyIntegrator.integrate_strategies`: join the three verdict lists on
stock code (all-or-nothing), build one integrated signal per fully covered
code, and sort by descending (level value, confidence) — a stable sort, as in
Python. -/
def integrate_strategies (I : StrategyIntegrator)
    (rs : List RationalInvestmentScore) (gs : List GrowthValuationPosition)
    (ss : List ShortTermSignal) : List IntegratedSignal :=
  List.insertionSort signalSortLe
    ((all_codes rs gs ss).filterMap (join_entry I rs gs ss))

/-- Strong stock: passes the rational screen (9 ≥ 7.5). -/
def rA : RationalInvestmentScore :=
  { stock_code := "AAA", stock_name := "Alpha", total_score := 9 }

/-- Strong stock: in the target quadrant. -/
def gA : GrowthValuationPosition :=
  { stock_code := "AAA", stock_name := "Alpha", growth_rate := 40, valuation := 15,
    quadrant := .bottom_right }

/-- Strong stock: all hard and 3 soft timing conditions met. -/
def sA : ShortTermSignal :=
  { stock_code := "AAA", stock_name := "Alpha",
    trend_conditions_met := true, sentiment_conditions_met := true,
    structure_conditions_met := true,
    soft_conditions_met := 3, soft_conditions_total := 6,
    current_price := 10, structure_low := 9,
    first_target := 12, second_target := 14, stop_loss := 9 }

/-- Weak stock: fails the rational screen. -/
def rB : RationalInvestmentScore :=
  { stock_code := "BBB", stock_name := "Beta", total_score := 1 }

/-- Weak stock: outside the target quadrant. -/
def gB : GrowthValuationPosition :=
  { stock_code := "BBB", stock_name := "Beta", growth_rate := 2, valuation := 60,
    quadrant := .top_left }

/-- Weak stock: no timing conditions met. -/
def sB : ShortTermSignal :=
  { stock_code := "BBB", stock_name := "Beta",
    trend_conditions_met := false, sentiment_conditions_met := false,
    structure_conditions_met := false,
    soft_conditions_met := 0, soft_conditions_total := 6,
    current_price := 10, structure_low := 9,
    first_target := 11, second_target := 12, stop_loss := 9 }

/-- C2: the signal tier follows the priority decision table: fundamental pass
and target quadrant and all hard timing conditions give Tier 1; otherwise
target quadrant and hard conditions give Tier 2; otherwise a fundamental pass
alone gives Tier 3; otherwise Tier 3 is the default floor — a joined signal is
never dropped, it always receives one of the three tiers. -/
theorem determine_signal_level_table (pr pg ps : Bool) :
    determine_signal_level pr pg ps =
      (if pr = true ∧ pg = true ∧ ps = true then SignalLevel.LEVEL_1
       else if pg = true ∧ ps = true then SignalLevel.LEVEL_2
       else if pr = true then SignalLevel.LEVEL_3
       else SignalLevel.LEVEL_3) := by
  cases pr <;> cases pg <;> cases ps <;> simp [determine_signal_level]

/-- C6: the derived potential return is `(0, 0)` whenever the current price is
not positive, and the risk/reward figure is `0` whenever the loss to the
stop-loss is not positive; in both guarded branches no division by a
non-positive denominator is taken. -/
theorem short_term_derived_guards (s : ShortTermSignal) :
    (s.current_price ≤ 0 → s.potential_return = (0, 0)) ∧
    (s.current_price - s.stop_loss ≤ 0 → s.risk_reward = 0) := by
  constructor
  · intro h
    simp [ShortTermSignal.potential_return, not_lt.mpr h]
  · intro h
    simp [ShortTermSignal.risk_reward, not_lt.mpr h]

/-- Witness for C6 at a concrete signal with zero current price. -/
theorem short_term_derived_guards_witness :
    stZeroPrice.potential_return = (0, 0) ∧ stZeroPrice.risk_reward = 0 :=
  ⟨(short_term_derived_guards stZeroPrice).1 (by norm_num [stZeroPrice]),
   (short_term_derived_guards stZeroPrice).2 (by norm_num [stZeroPrice])⟩

/-- C8: the fundamental gate score is never negative, and a missing or empty
snapshot table scores exactly 0. -/
theorem gate1_score_nonneg_and_empty (funda : Option (List FundamentalRow)) :
    0 ≤ gate1_score funda ∧
    ((funda = none ∨ funda = some []) → gate1_score funda = 0) := by
  constructor
  · cases funda with
    | none => simp [gate1_score]
    | some rows =>
      cases h : rows.getLast? with
      | none => simp [gate1_score, h]
      | some row => simp [gate1_score, h, le_max_iff]
  · rintro (h | h) <;> subst h <;> simp [gate1_score]

/-- Witness for C8: the empty table and a concrete one-row table. -/
theorem gate1_score_nonneg_and_empty_witness :
    gate1_score (some []) = 0 ∧ 0 ≤ gate1_score (some [{ net_profit := some (-5) }]) :=
  ⟨(gate1_score_nonneg_and_empty (some [])).2 (Or.inr rfl),
   (gate1_score_nonneg_and_empty (some [{ net_profit := some (-5) }])).1⟩

/-- C9 counterexample: both baselines are present (known), the claim demands
`(growth − industry growth, valuation − industry valuation) = (5, 5)`, but the
code returns the neutral `(0, 0)` because a present baseline of `0.0` is falsy
in Python. -/
theorem get_relative_position_cex :
    gZeroBaseline.industry_avg_growth = some 0 ∧
    gZeroBaseline.industry_avg_valuation = some 5 ∧
    gZeroBaseline.get_relative_position = (0, 0) ∧
    (gZeroBaseline.growth_rate - 0, gZeroBaseline.valuation - 5) = ((5 : ℚ), (5 : ℚ)) ∧
    gZeroBaseline.get_relative_position ≠
      (gZeroBaseline.growth_rate - 0, gZeroBaseline.valuation - 5) := by
  refine ⟨rfl, rfl, ?_, by norm_num [gZeroBaseline], ?_⟩ <;>
    norm_num [gZeroBaseline, GrowthValuationPosition.get_relative_position, Prod.ext_iff]

/-- C9 (amended): when both industry baselines are present AND non-zero the
relative position is the pair of differences; when either baseline is absent
or equal to zero the neutral pair `(0, 0)` is returned. -/
theorem get_relative_position_amended (g : GrowthValuationPosition) :
    (∀ ag av, g.industry_avg_growth = some ag → g.industry_avg_valuation = some av →
      ag ≠ 0 → av ≠ 0 →
      g.get_relative_position = (g.growth_rate - ag, g.valuation - av)) ∧
    ((g.industry_avg_growth = none ∨ g.industry_avg_growth = some 0 ∨
      g.industry_avg_valuation = none ∨ g.industry_avg_valuation = some 0) →
      g.get_relative_position = (0, 0)) := by
  constructor
  · intro ag av hag hav hag0 hav0
    simp [GrowthValuationPosition.get_relative_position, hag, hav, hag0, hav0]
  · intro h
    rcases hg : g.industry_avg_growth with _ | ag
    · rcases hv : g.industry_avg_valuation with _ | av <;>
        simp [GrowthValuationPosition.get_relative_position, hg, hv]
    · rcases hv : g.industry_avg_valuation with _ | av
      · simp [GrowthValuationPosition.get_relative_position, hg, hv]
      · have hor : ag = 0 ∨ av = 0 := by
          rcases h with h | h | h | h
          · rw [hg] at h; exact absurd h (by simp)
          · rw [hg] at h; exact Or.inl (Option.some.inj h)
          · rw [hv] at h; exact absurd h (by simp)
          · rw [hv] at h; exact Or.inr (Option.some.inj h)
        rcases hor with h0 | h0 <;>
          simp [GrowthValuationPosition.get_relative_position, hg, hv, h0]

/-- Witness for the amended C9 at concrete positions: non-zero baselines give
the difference pair, a zero growth baseline gives the neutral pair. -/
theorem get_relative_position_amended_witness :
    ({ stock_code := "600001", stock_name := "D2", growth_rate := 10, valuation := 30,
       quadrant := Quadrant.top_right, industry_avg_growth := some 3,
       industry_avg_valuation := some 20 : GrowthValuationPosition }).get_relative_position
        = (10 - 3, 30 - 20) ∧
    gZeroBaseline.get_relative_position = (0, 0) :=
  ⟨(get_relative_position_amended _).1 3 20 rfl rfl (by norm_num) (by norm_num),
   (get_relative_position_amended gZeroBaseline).2 (Or.inr (Or.inl rfl))⟩

/-- C3 counterexample: (a) at a negative fundamental total score the computed
confidence is `-39`, outside the claimed range `[0, 10]` (the code clamps only
from above); (b) at a present PEG of `0.0` — which is under 1.0 — the code
awards 1 point, not the claimed 2, because `0.0` is falsy in Python, so the
code value `1` differs from the claim's formula value `2`. -/
theorem calculate_confidence_score_cex :
    calculate_confidence_score defaultIntegrator rNeg gPegZero stQuiet false = -39 ∧
    calculate_confidence_score defaultIntegrator rNeg gPegZero stQuiet false < 0 ∧
    calculate_confidence_score defaultIntegrator rZero gPegZero stQuiet false = 1 ∧
    claim_confidence_formula defaultIntegrator rZero gPegZero stQuiet false = 2 := by
  have hq : Quadrant.top_left ≠ Quadrant.bottom_right := by decide
  refine ⟨?_, ?_, ?_, ?_⟩ <;>
    norm_num [calculate_confidence_score, claim_confidence_formula, defaultIntegrator,
      rNeg, rZero, gPegZero, stQuiet, ShortTermSignal.all_hard_conditions_met, hq]

/-- C3 (amended): the confidence is the clamped sum of the four contributions,
with the PEG fallback requiring a present AND non-zero PEG under 1.0; and the
result lies in `[0, 10]` whenever the fundamental total score is non-negative. -/
theorem calculate_confidence_score_amended (I : StrategyIntegrator)
    (r : RationalInvestmentScore) (g : GrowthValuationPosition)
    (st : ShortTermSignal) (pass_all : Bool) :
    calculate_confidence_score I r g st pass_all =
      min (min (r.total_score / 10) 1 * 4
        + (if g.quadrant = I.target_quadrant then 3
           else if g.peg.getD 0 ≠ 0 ∧ g.peg.getD 0 < 1 then 2 else 1)
        + ((if st.all_hard_conditions_met then 2 else 0)
           + (if 3 ≤ st.soft_conditions_met then 1 else 0))
        + (if pass_all then 1 else 0)) 10 ∧
    (0 ≤ r.total_score →
      0 ≤ calculate_confidence_score I r g st pass_all ∧
      calculate_confidence_score I r g st pass_all ≤ 10) := by
  constructor
  · rfl
  · intro hts
    have h1 : (0:ℚ) ≤ min (r.total_score / 10) 1 * 4 :=
      mul_nonneg (le_min (by positivity) (by norm_num)) (by norm_num)
    have h2 : (0:ℚ) ≤ (if g.quadrant = I.target_quadrant then (3:ℚ)
        else if g.peg.getD 0 ≠ 0 ∧ g.peg.getD 0 < 1 then 2 else 1) := by
      split_ifs <;> norm_num
    have h3 : (0:ℚ) ≤ ((if st.all_hard_conditions_met then (2:ℚ) else 0)
        + (if 3 ≤ st.soft_conditions_met then (1:ℚ) else 0)) := by
      split_ifs <;> norm_num
    have h4 : (0:ℚ) ≤ (if pass_all then (1:ℚ) else 0) := by
      split_ifs <;> norm_num
    constructor
    · exact le_min (by linarith) (by norm_num)
    · exact min_le_right _ _

/-- Witness for the amended C3 at a concrete non-negative total score. -/
theorem calculate_confidence_score_amended_witness :
    0 ≤ calculate_confidence_score defaultIntegrator rEight gPegZero stQuiet false ∧
    calculate_confidence_score defaultIntegrator rEight gPegZero stQuiet false ≤ 10 :=
  (calculate_confidence_score_amended defaultIntegrator rEight gPegZero stQuiet false).2
    (by norm_num [rEight])

/-- C5 counterexample: at a Tier-1 signal with confidence `-10` and
risk/reward `3` the computed position is `-6/125 = -0.048`, outside the
claimed range `[0, 0.08]` (the code caps only from above). -/
theorem calculate_position_size_cex :
    calculate_position_size SignalLevel.LEVEL_1 (-10) 3 = -(6 / 125) ∧
    calculate_position_size SignalLevel.LEVEL_1 (-10) 3 < 0 := by
  constructor <;> norm_num [calculate_position_size]

/-- C5 (amended): the suggested position equals the claim's base × confidence
× risk/reward formula capped at the hard maximum 0.08, and it lies in
`[0, 0.08]` whenever the confidence score is non-negative. -/
theorem calculate_position_size_amended (lvl : SignalLevel) (confidence rr : ℚ) :
    calculate_position_size lvl confidence rr =
      min (claim_position_formula lvl confidence rr) (8 / 100) ∧
    (0 ≤ confidence →
      0 ≤ calculate_position_size lvl confidence rr ∧
      calculate_position_size lvl confidence rr ≤ 8 / 100) := by
  constructor
  · rfl
  · intro hc
    have hb : (0:ℚ) ≤ (match lvl with
        | SignalLevel.LEVEL_1 => (4 : ℚ) / 100
        | SignalLevel.LEVEL_2 => 2 / 100
        | SignalLevel.LEVEL_3 => 1 / 100) := by
      cases lvl <;> norm_num
    have hrr : (0:ℚ) ≤ (if rr > 2 then (12 : ℚ) / 10
        else if rr > 3 / 2 then 1 else 8 / 10) := by
      split_ifs <;> norm_num
    exact ⟨le_min (mul_nonneg (mul_nonneg hb (div_nonneg hc (by norm_num))) hrr)
      (by norm_num), min_le_right _ _⟩

/-- Witness for the amended C5 at concrete favourable inputs. -/
theorem calculate_position_size_amended_witness :
    0 ≤ calculate_position_size SignalLevel.LEVEL_1 10 3 ∧
    calculate_position_size SignalLevel.LEVEL_1 10 3 ≤ 8 / 100 :=
  (calculate_position_size_amended SignalLevel.LEVEL_1 10 3).2 (by norm_num)

/-- C10: for any tier, any confidence in `[0, 10]` and any risk/reward ratio,
the position is at most `0.048 = 0.04 × 1.0 × 1.2`, so the hard `0.08` cap is
never the binding constraint: the capped value equals the uncapped product. -/
theorem position_cap_never_binds (lvl : SignalLevel) (confidence rr : ℚ)
    (h0 : 0 ≤ confidence) (h10 : confidence ≤ 10) :
    calculate_position_size lvl confidence rr ≤ 48 / 1000 ∧
    calculate_position_size lvl confidence rr =
      calculate_position_size_uncapped lvl confidence rr := by
  have hprod : calculate_position_size_uncapped lvl confidence rr ≤ 48 / 1000 := by
    unfold calculate_position_size_uncapped
    cases lvl <;> split_ifs <;> simp only [] <;> nlinarith [h0, h10]
  have hmin : calculate_position_size lvl confidence rr =
      min (calculate_position_size_uncapped lvl confidence rr) (8 / 100) := rfl
  constructor
  · rw [hmin]
    exact le_trans (min_le_left _ _) hprod
  · rw [hmin]
    exact min_eq_left (hprod.trans (by norm_num))

/-- Witness for C10 at a concrete in-range confidence. -/
theorem position_cap_never_binds_witness :
    calculate_position_size SignalLevel.LEVEL_2 9 3 ≤ 48 / 1000 ∧
    calculate_position_size SignalLevel.LEVEL_2 9 3 =
      calculate_position_size_uncapped SignalLevel.LEVEL_2 9 3 :=
  position_cap_never_binds SignalLevel.LEVEL_2 9 3 (by norm_num) (by norm_num)

/-- On a table with at least two rows, `gate2_priority` is the scalar core
applied to the last row's growth (default 0) and PE (default 100). -/
theorem gate2_priority_last (rows : List FundamentalRow) (row : FundamentalRow)
    (h : rows ≠ []) :
    gate2_priority (some (rows ++ [row])) =
      gate2_core (row.profit_growth.getD 0) (row.pe.getD 100) := by
  have hlen : ¬ (rows ++ [row]).length < 2 := by
    have hpos : 0 < rows.length := List.length_pos.mpr h
    simp only [List.length_append, List.length_cons, List.length_nil]
    omega
  have hlast : (rows ++ [row]).getLast? = some row := by
    rw [List.getLast?_append_cons]
    rfl
  simp only [gate2_priority, hlen, if_false, hlast, gate2_core]

/-- The scalar core is monotone in growth among positive-growth inputs with a
fixed PE. -/
theorem gate2_core_mono (pe g1 g2 : ℚ) (h1 : 0 < g1) (h12 : g1 ≤ g2) :
    gate2_core g1 pe ≤ gate2_core g2 pe := by
  unfold gate2_core
  by_cases hpe : pe < 20 <;>
    simp only [hpe, and_true, and_false, if_false] <;>
      split_ifs <;> linarith

/-- The scalar core awards the top priority 3 exactly for high growth
combined with low valuation. -/
theorem gate2_core_top (g pe : ℚ) :
    gate2_core g pe = 3 ↔ 30 < g ∧ pe < 20 := by
  constructor
  · intro h
    unfold gate2_core at h
    split_ifs at h with h1 h2 h3 h4
    · exact absurd h (by norm_num)
    · exact h2
    · exact absurd h (by norm_num)
    · exact absurd h (by norm_num)
    · exact absurd h (by norm_num)
  · rintro ⟨h30, hpe⟩
    unfold gate2_core
    rw [if_neg (by linarith), if_pos ⟨h30, hpe⟩]

/-- High growth without low valuation receives exactly priority 2. -/
theorem gate2_core_high_growth_only (g pe : ℚ) (h30 : 30 < g) (hpe : ¬ pe < 20) :
    gate2_core g pe = 2 := by
  unfold gate2_core
  rw [if_neg (by linarith), if_neg (fun hc => hpe hc.2), if_pos (by linarith)]

/-- C7: the growth-value gate returns 0 for a missing table and for any table
with fewer than two rows; non-positive growth yields 0 regardless of the PE;
among positive-growth inputs with the same PE the priority is non-decreasing
in growth; on a two-or-more-row table the single highest priority 3 is awarded
exactly when growth exceeds 30 and PE is below 20, and merely-high-growth
inputs (growth above 30, PE not below 20) receive at most 2. -/
theorem gate2_priority_spec :
    gate2_priority none = 0 ∧
    (∀ rows : List FundamentalRow, rows.length < 2 → gate2_priority (some rows) = 0) ∧
    (∀ (rows : List FundamentalRow) (row : FundamentalRow),
        row.profit_growth.getD 0 ≤ 0 → gate2_priority (some (rows ++ [row])) = 0) ∧
    (∀ (rows : List FundamentalRow) (r1 r2 : FundamentalRow),
        r1.pe = r2.pe →
        0 < r1.profit_growth.getD 0 →
        r1.profit_growth.getD 0 ≤ r2.profit_growth.getD 0 →
        gate2_priority (some (rows ++ [r1])) ≤ gate2_priority (some (rows ++ [r2]))) ∧
    (∀ (rows : List FundamentalRow) (row : FundamentalRow), rows ≠ [] →
        (gate2_priority (some (rows ++ [row])) = 3 ↔
          30 < row.profit_growth.getD 0 ∧ row.pe.getD 100 < 20)) ∧
    (∀ (rows : List FundamentalRow) (row : FundamentalRow),
        30 < row.profit_growth.getD 0 → ¬ row.pe.getD 100 < 20 →
        gate2_priority (some (rows ++ [row])) ≤ 2) := by
  have hshort : ∀ rows : List FundamentalRow, rows.length < 2 →
      gate2_priority (some rows) = 0 := by
    intro rows hlen
    simp [gate2_priority, hlen]
  refine ⟨rfl, hshort, ?_, ?_, ?_, ?_⟩
  · intro rows row hg
    rcases eq_or_ne rows [] with h | h
    · subst h
      exact hshort _ (by simp)
    · rw [gate2_priority_last rows row h]
      unfold gate2_core
      rw [if_pos hg]
  · intro rows r1 r2 hpe h1 h12
    rcases eq_or_ne rows [] with h | h
    · subst h
      rw [hshort _ (by simp), hshort _ (by simp)]
    · rw [gate2_priority_last rows r1 h, gate2_priority_last rows r2 h, hpe]
      exact gate2_core_mono _ _ _ h1 h12
  · intro rows row h
    rw [gate2_priority_last rows row h]
    exact gate2_core_top _ _
  · intro rows row h30 hpe
    rcases eq_or_ne rows [] with h | h
    · subst h
      rw [hshort _ (by simp)]
      norm_num
    · rw [gate2_priority_last rows row h,
        gate2_core_high_growth_only _ _ h30 hpe]

/-- Witness for C7 at concrete tables: a one-row table scores 0; zero growth
scores 0; priority rises from growth 15 to growth 25 at the same PE; growth 35
with PE 15 is priority 3; growth 35 with PE 25 stays at most 2. -/
theorem gate2_priority_spec_witness :
    gate2_priority (some [{ profit_growth := some 35, pe := some 15 }]) = 0 ∧
    gate2_priority (some ([blankRow] ++ [{ profit_growth := some 0, pe := some 15 }])) = 0 ∧
    gate2_priority (some ([blankRow] ++ [{ profit_growth := some 15, pe := some 15 }])) ≤
      gate2_priority (some ([blankRow] ++ [{ profit_growth := some 25, pe := some 15 }])) ∧
    gate2_priority (some ([blankRow] ++ [{ profit_growth := some 35, pe := some 15 }])) = 3 ∧
    gate2_priority (some ([blankRow] ++ [{ profit_growth := some 35, pe := some 25 }])) ≤ 2 :=
  ⟨gate2_priority_spec.2.1 _ (by norm_num),
   gate2_priority_spec.2.2.1 [blankRow] _ (by norm_num),
   gate2_priority_spec.2.2.2.1 [blankRow] _ _ rfl (by norm_num) (by norm_num),
   (gate2_priority_spec.2.2.2.2.1 [blankRow] _ (by simp)).mpr ⟨by norm_num, by norm_num⟩,
   gate2_priority_spec.2.2.2.2.2 [blankRow] _ (by norm_num) (by norm_num)⟩

/-- The element found by `findByCode` belongs to the list and carries the
requested code. -/
theorem findByCode_eq_some {α : Type} (codeOf : α → String) (c : String)
    (l : List α) (x : α) (h : findByCode codeOf c l = some x) :
    x ∈ l ∧ codeOf x = c := by
  unfold findByCode at h
  have hp := List.find?_some h
  have hm := List.mem_of_find?_eq_some h
  simp only [decide_eq_true_eq] at hp
  exact ⟨List.mem_reverse.mp hm, hp⟩

/-- `findByCode` succeeds exactly when some element of the list carries the
requested code. -/
theorem findByCode_isSome {α : Type} (codeOf : α → String) (c : String)
    (l : List α) :
    (findByCode codeOf c l).isSome ↔ ∃ x ∈ l, codeOf x = c := by
  unfold findByCode
  rw [List.find?_isSome]
  simp [List.mem_reverse]

/-- C1: `integrate_strategies` emits a signal for a stock code if and only if
the code occurs in all three verdict collections; a code present in only one
or two of them never appears in the output (strict-AND join). -/
theorem integrate_strategies_strict_join (I : StrategyIntegrator)
    (rs : List RationalInvestmentScore) (gs : List GrowthValuationPosition)
    (ss : List ShortTermSignal) (c : String) :
    (∃ sig ∈ integrate_strategies I rs gs ss, sig.stock_code = c) ↔
      ((∃ r ∈ rs, r.stock_code = c) ∧ (∃ g ∈ gs, g.stock_code = c) ∧
        (∃ s ∈ ss, s.stock_code = c)) := by
  constructor
  · rintro ⟨sig, hmem, rfl⟩
    unfold integrate_strategies at hmem
    rw [List.mem_insertionSort] at hmem
    obtain ⟨c0, hc0, hf⟩ := List.mem_filterMap.mp hmem
    unfold join_entry at hf
    rcases h1 : findByCode RationalInvestmentScore.stock_code c0 rs with _ | r
    · rw [h1] at hf; simp at hf
    rcases h2 : findByCode GrowthValuationPosition.stock_code c0 gs with _ | g
    · rw [h1, h2] at hf; simp at hf
    rcases h3 : findByCode ShortTermSignal.stock_code c0 ss with _ | s
    · rw [h1, h2, h3] at hf; simp at hf
    rw [h1, h2, h3] at hf
    simp only [Option.some.injEq] at hf
    obtain ⟨hrmem, hrc⟩ := findByCode_eq_some _ _ _ _ h1
    obtain ⟨hgmem, hgc⟩ := findByCode_eq_some _ _ _ _ h2
    obtain ⟨hsmem, hsc⟩ := findByCode_eq_some _ _ _ _ h3
    subst hf
    exact ⟨⟨r, hrmem, hrc⟩, ⟨g, hgmem, hgc⟩, ⟨s, hsmem, hsc⟩⟩
  · rintro ⟨⟨r, hr, hrc⟩, ⟨g, hg, hgc⟩, ⟨s, hs, hsc⟩⟩
    have hc : c ∈ all_codes rs gs ss := by
      unfold all_codes
      rw [List.mem_dedup]
      exact List.mem_append.mpr (Or.inl (List.mem_append.mpr
        (Or.inl (List.mem_map.mpr ⟨r, hr, hrc⟩))))
    obtain ⟨r0, hr0⟩ := Option.isSome_iff_exists.mp
      ((findByCode_isSome RationalInvestmentScore.stock_code c rs).mpr ⟨r, hr, hrc⟩)
    obtain ⟨g0, hg0⟩ := Option.isSome_iff_exists.mp
      ((findByCode_isSome GrowthValuationPosition.stock_code c gs).mpr ⟨g, hg, hgc⟩)
    obtain ⟨s0, hs0⟩ := Option.isSome_iff_exists.mp
      ((findByCode_isSome ShortTermSignal.stock_code c ss).mpr ⟨s, hs, hsc⟩)
    refine ⟨build_signal I c r0 g0 s0, ?_, rfl⟩
    unfold integrate_strategies
    rw [List.mem_insertionSort]
    exact List.mem_filterMap.mpr ⟨c, hc, by unfold join_entry; rw [hr0, hg0, hs0]⟩

/-- C4: evaluating the integration on a strong Tier-1 stock ("AAA") and a
weak Tier-3 stock ("BBB") shows the output order the code produces:
`sort(key=(signal_level.value, confidence), reverse=True)` sorts the numeric
enum value DESCENDING, and `LEVEL_1` has the SMALLEST value, so the weakest
tier comes first — the Tier-3 signal precedes the Tier-1 signal, contradicting
the spec's strength-descending ranking. -/
theorem integrate_strategies_sort_direction :
    (integrate_strategies defaultIntegrator [rA, rB] [gA, gB] [sA, sB]).map
        (fun sig => (sig.stock_code, sig.signal_level)) =
      [("BBB", SignalLevel.LEVEL_3), ("AAA", SignalLevel.LEVEL_1)] := by
  norm_num [integrate_strategies, all_codes, join_entry, findByCode, build_signal,
    determine_signal_level, calculate_confidence_score, calculate_position_size,
    RationalInvestmentScore.is_pass, GrowthValuationPosition.is_in_target_quadrant,
    ShortTermSignal.all_hard_conditions_met, ShortTermSignal.risk_reward,
    defaultIntegrator, rA, rB, gA, gB, sA, sB,
    List.insertionSort, List.orderedInsert, signalSortLe, SignalLevel.value,
    List.dedup_cons_of_mem, List.dedup_cons_of_not_mem, List.find?]

/-- Witness for C1: with all three verdicts present for "AAA" the signal is
emitted; removing the timing verdict suppresses it. -/
theorem integrate_strategies_strict_join_witness :
    (∃ sig ∈ integrate_strategies defaultIntegrator [rA] [gA] [sA],
        sig.stock_code = "AAA") ∧
    ¬ (∃ sig ∈ integrate_strategies defaultIntegrator [rA] [gA] [],
        sig.stock_code = "AAA") :=
  ⟨(integrate_strategies_strict_join defaultIntegrator [rA] [gA] [sA] "AAA").mpr
      ⟨⟨rA, by simp, rfl⟩, ⟨gA, by simp, rfl⟩, ⟨sA, by simp, rfl⟩⟩,
   fun h => by
     obtain ⟨-, -, s, hs, -⟩ :=
       (integrate_strategies_strict_join defaultIntegrator [rA] [gA] [] "AAA").mp h
     exact absurd hs (List.not_mem_nil s)⟩
